import Mathlib

/-!
Verification development for the climahw repository (wind-component byte
codec, area-geometry helpers, and processing pipeline).

Real-valued quantities are embedded as rationals; numpy's `np.around`
(round half to even) is embedded as `around`; fallible pipeline steps
return `Except`.
-/

namespace ClimaHW

/-- Embedding of numpy's `np.around` at its default zero decimals:
rounds a real value to the nearest integer, ties going to the even
neighbor (round half to even). -/
def around (x : ℚ) : ℤ :=
  if x - ⌊x⌋ < 1/2 then ⌊x⌋
  else if 1/2 < x - ⌊x⌋ then ⌊x⌋ + 1
  else if ⌊x⌋ % 2 = 0 then ⌊x⌋ else ⌊x⌋ + 1

/-- Embedding of `MAX_WIND_SPEED = 25.` from `encoding.py`. -/
def MAX_WIND_SPEED : ℚ := 25

/-- Embedding of `encode_to_scaled_byte(raw, max_value)` from
`encoding.py`: `np.around(127*np.maximum(np.minimum(raw/max_value, 1), -1) + 128)`. -/
def encode_to_scaled_byte (raw max_value : ℚ) : ℤ :=
  around (127 * max (min (raw / max_value) 1) (-1) + 128)

/-- Embedding of `decode_from_scaled_byte(byte, max_value)` from
`encoding.py`: `max_value*(byte - 128.)/127.`. -/
def decode_from_scaled_byte (byte max_value : ℚ) : ℚ :=
  max_value * (byte - 128) / 127

/-- Embedding of `encode_wind(raw)` from `encoding.py`. -/
def encode_wind (raw : ℚ) : ℤ :=
  encode_to_scaled_byte raw MAX_WIND_SPEED

/-- Embedding of `decode_wind(byte)` from `encoding.py`. -/
def decode_wind (byte : ℚ) : ℚ :=
  decode_from_scaled_byte byte MAX_WIND_SPEED

/-- Embedding of `Homework.encode_magnitude_to_scaled_byte(magnitude, max_value)`
from `homework.py`: `around(255*maximum(minimum(magnitude/max_value, 1), 0) + 0)`. -/
def encode_magnitude_to_scaled_byte (magnitude max_value : ℚ) : ℤ :=
  around (255 * max (min (magnitude / max_value) 1) 0 + 0)

/-- Embedding of `Homework.encode_wind_magnitude(magnitude)` from `homework.py`. -/
def encode_wind_magnitude (magnitude : ℚ) : ℤ :=
  encode_magnitude_to_scaled_byte magnitude MAX_WIND_SPEED

/-- Embedding of `Homework.area_extent_from_user_shape(shape, offset)` from
`homework.py`.  `w = around(shape[0]/2)`, `h = around(shape[1]/2)`; when
`offset is None`, `dx = -w`, `dy = h`, otherwise `dx, dy = offset`; the
result is `[-w + dx, -h + dy, w + dx, h + dy]`. -/
def area_extent_from_user_shape (shape : ℚ × ℚ) (offset : Option (ℚ × ℚ)) :
    ℚ × ℚ × ℚ × ℚ :=
  let w : ℚ := around (shape.1 / 2)
  let h : ℚ := around (shape.2 / 2)
  let d : ℚ × ℚ :=
    match offset with
    | none => (-w, h)
    | some o => o
  (-w + d.1, -h + d.2, w + d.1, h + d.2)

/-- Embedding of `Homework.compute_target_image_size(source_image_size, scale_factor)`
from `homework.py`. -/
def compute_target_image_size (source_image_size : ℚ × ℚ) (scale_factor : ℚ) :
    ℚ × ℚ :=
  if scale_factor = 1 then source_image_size
  else (source_image_size.1 * scale_factor, source_image_size.2 * scale_factor)

/-- Embedding of the source-extent derivation in `Homework.resample`
(`homework.py` line 217): `e1 = self.area_extent_from_user_shape(pa.sShape, [0,0])`. -/
def resample_source_extent (sShape : ℚ × ℚ) : ℚ × ℚ × ℚ × ℚ :=
  area_extent_from_user_shape sShape (some (0, 0))

/-- Embedding of a grayscale image as read by `imread` + `asarray(dtype="uint8")`:
a rectangular grid of byte values, row major. -/
abbrev Image := List (List ℤ)

/-- Embedding of numpy's `.shape` for a 2-D `Image`: rows, then columns of
the first row. -/
def npShape (img : Image) : ℕ × ℕ := (img.length, (img.headD []).length)

/-- Embedding of the error outcomes of `Homework.process_data`: `DataError`
(raised in `homework.py` when an input file is not found, with a descriptive
label) and the bare `assert` on line 170. -/
inductive PipelineError where
  | dataError : String → PipelineError
  | assertionFailed : PipelineError
deriving DecidableEq

/-- Embedding of `Homework.process_data` (`homework.py` lines 141-184).  The
external collaborators are passed in explicitly: `sqrtFn` stands for numpy's
`sqrt` and `resampleFn` for `Homework.resample`'s delegation to the external
resampling library; `uFileData`/`vFileData` are the contents of the two input
files when they exist (`none` models `FileNotFoundError` on `imread`).  The
returned `Except` value is `.ok mData` exactly when the run reaches step 5
and writes `mData` to the output file; an `.error` return models a raise
before any output is written. -/
def process_data (sqrtFn : ℚ → ℚ) (resampleFn : List (List ℚ) → List (List ℚ))
    (uFileData vFileData : Option Image) : Except PipelineError Image :=
  match uFileData with
  | none => .error (.dataError "uData image file not found")
  | some uData =>
    match vFileData with
    | none => .error (.dataError "uData image file not found")
    | some vData =>
      if npShape vData = npShape uData then
        let wData := List.zipWith
          (fun ru rv => List.zipWith
            (fun (u v : ℤ) => sqrtFn (decode_wind (u : ℚ) ^ 2 + decode_wind (v : ℚ) ^ 2)) ru rv)
          uData vData
        let rData := resampleFn wData
        let mData := rData.map (fun row => row.map (fun x => encode_wind_magnitude x))
        .ok mData
      else .error .assertionFailed

/-- Embedding of `DEGREES_TO_METERS = 500.0/0.005` from `homework.py`. -/
def DEGREES_TO_METERS : ℚ := 500 / (5 / 1000)

/-- Embedding of the parsed-argument namespace produced by `argparse` in
`Homework.process_args`, restricted to the fields the post-processing
touches.  `sShape` is never `none` (it has default `DEFAULT_AREA_SOURCE`). -/
structure ParsedArgs where
  nprocs : ℤ
  units : Char
  sShape : ℚ × ℚ
  tShape : Option (ℚ × ℚ)
  tOffset : Option (ℚ × ℚ)
deriving DecidableEq

/-- Embedding of `Homework.normalize_units(pa)` (`homework.py` lines 111-139):
when units are degrees, every shape/offset component is multiplied by
`DEGREES_TO_METERS` and units become meters. -/
def normalize_units (pa : ParsedArgs) : ParsedArgs :=
  if pa.units = 'd' then
    { pa with
      sShape := (pa.sShape.1 * DEGREES_TO_METERS, pa.sShape.2 * DEGREES_TO_METERS)
      tShape := pa.tShape.map (fun s => (s.1 * DEGREES_TO_METERS, s.2 * DEGREES_TO_METERS))
      tOffset := pa.tOffset.map (fun o => (o.1 * DEGREES_TO_METERS, o.2 * DEGREES_TO_METERS))
      units := 'm' }
  else pa

/-- Embedding of the post-processing block of `Homework.process_args`
(`homework.py` lines 76-84): clamp `nprocs` to the default processor count,
normalize degree units, then default a missing target shape to the source
shape while forcing the target offset to `[0, 0]`. -/
def post_process_args (default_num_procs : ℤ) (pa : ParsedArgs) : ParsedArgs :=
  let pa1 := if default_num_procs < pa.nprocs then { pa with nprocs := default_num_procs } else pa
  let pa2 := if pa1.units = 'd' then normalize_units pa1 else pa1
  if pa2.tShape = none then { pa2 with tShape := some pa2.sShape, tOffset := some (0, 0) }
  else pa2

/-! Basic facts about `around` (round half to even). -/

lemma around_intCast (n : ℤ) : around (n : ℚ) = n := by
  simp [around, Int.floor_intCast]

lemma around_eq_floor_or (x : ℚ) : around x = ⌊x⌋ ∨ around x = ⌊x⌋ + 1 := by
  unfold around
  split_ifs <;> simp

lemma around_abs_sub_le (x : ℚ) : |(around x : ℚ) - x| ≤ 1/2 := by
  have h1 : (⌊x⌋ : ℚ) ≤ x := Int.floor_le x
  have h2 : x < ⌊x⌋ + 1 := Int.lt_floor_add_one x
  unfold around
  split_ifs with ha hb hc <;>
    · rw [abs_le]
      constructor <;> push_cast <;> linarith

lemma around_mono {x y : ℚ} (h : x ≤ y) : around x ≤ around y := by
  rcases lt_or_eq_of_le (Int.floor_le_floor h) with hf | hf
  · rcases around_eq_floor_or x with hx | hx <;>
      rcases around_eq_floor_or y with hy | hy <;> omega
  · have hxy : x - (⌊y⌋ : ℚ) ≤ y - (⌊y⌋ : ℚ) := by linarith
    unfold around
    rw [hf]
    split_ifs <;> first | omega | linarith

/-- C1: for every wind-component value `v` in `[-25, 25]`,
`decode_wind (encode_wind v)` differs from `v` by at most `25/127`; for `v`
outside `[-25, 25]`, `encode_wind v` is the boundary byte, `1` when
`v < -25` and `255` when `v > 25`. -/
theorem C1_encode_decode_wind (v : ℚ) :
    (-25 ≤ v → v ≤ 25 → |decode_wind (encode_wind v) - v| ≤ 25 / 127) ∧
    (v < -25 → encode_wind v = 1) ∧
    (25 < v → encode_wind v = 255) := by
  refine ⟨fun h1 h2 => ?_, fun h => ?_, fun h => ?_⟩
  · have hlo : (-1 : ℚ) ≤ v / 25 := by
      rw [le_div_iff₀ (by norm_num : (0:ℚ) < 25)]; linarith
    have hhi : v / 25 ≤ 1 := by
      rw [div_le_one (by norm_num : (0:ℚ) < 25)]; linarith
    unfold encode_wind encode_to_scaled_byte decode_wind decode_from_scaled_byte MAX_WIND_SPEED
    rw [min_eq_left hhi, max_eq_left hlo]
    set t : ℚ := 127 * (v / 25) + 128 with ht
    have hb := around_abs_sub_le t
    have key : 25 * ((around t : ℚ) - 128) / 127 - v = 25 / 127 * ((around t : ℚ) - t) := by
      rw [ht]; ring
    rw [key, abs_mul, show |(25:ℚ)/127| = 25/127 by norm_num]
    nlinarith [abs_nonneg ((around t : ℚ) - t)]
  · have hlt : v / 25 < -1 := by
      rw [div_lt_iff₀ (by norm_num : (0:ℚ) < 25)]; linarith
    have hmin : min (v / 25) 1 = v / 25 := min_eq_left (by linarith)
    have hmax : max (v / 25) (-1 : ℚ) = -1 := max_eq_right hlt.le
    unfold encode_wind encode_to_scaled_byte MAX_WIND_SPEED
    rw [hmin, hmax]
    norm_num [around]
  · have hgt : (1:ℚ) ≤ v / 25 := by
      rw [le_div_iff₀ (by norm_num : (0:ℚ) < 25)]; linarith
    have hmin : min (v / 25) 1 = 1 := min_eq_right hgt
    have hmax : max (1 : ℚ) (-1 : ℚ) = 1 := by norm_num
    unfold encode_wind encode_to_scaled_byte MAX_WIND_SPEED
    rw [hmin, hmax]
    norm_num [around]

/-- Witness for C1 at the concrete inputs `10`, `-30` and `30`. -/
theorem C1_encode_decode_wind_witness :
    |decode_wind (encode_wind 10) - 10| ≤ 25 / 127 ∧
    encode_wind (-30) = 1 ∧ encode_wind 30 = 255 :=
  ⟨(C1_encode_decode_wind 10).1 (by norm_num) (by norm_num),
   (C1_encode_decode_wind (-30)).2.1 (by norm_num),
   (C1_encode_decode_wind 30).2.2 (by norm_num)⟩

/-- C2: `encode_wind_magnitude` is monotone non-decreasing on all rational
magnitudes, maps `0` to byte `0` and `25` to byte `255`, and clips every
magnitude above `25` to byte `255`. -/
theorem C2_encode_wind_magnitude :
    (∀ m m' : ℚ, m ≤ m' → encode_wind_magnitude m ≤ encode_wind_magnitude m') ∧
    encode_wind_magnitude 0 = 0 ∧
    encode_wind_magnitude 25 = 255 ∧
    (∀ m : ℚ, 25 < m → encode_wind_magnitude m = 255) := by
  refine ⟨fun m m' h => ?_, ?_, ?_, fun m h => ?_⟩
  · unfold encode_wind_magnitude encode_magnitude_to_scaled_byte MAX_WIND_SPEED
    apply around_mono
    have h1 : m / 25 ≤ m' / 25 := by linarith
    have h2 : max (min (m / 25) 1) 0 ≤ max (min (m' / 25) 1) 0 :=
      max_le_max (min_le_min h1 le_rfl) le_rfl
    linarith
  · unfold encode_wind_magnitude encode_magnitude_to_scaled_byte MAX_WIND_SPEED
    norm_num [around]
  · unfold encode_wind_magnitude encode_magnitude_to_scaled_byte MAX_WIND_SPEED
    norm_num [around]
  · have hgt : (1:ℚ) ≤ m / 25 := by
      rw [le_div_iff₀ (by norm_num : (0:ℚ) < 25)]; linarith
    have hmin : min (m / 25) 1 = 1 := min_eq_right hgt
    have hmax : max (1 : ℚ) (0 : ℚ) = 1 := by norm_num
    unfold encode_wind_magnitude encode_magnitude_to_scaled_byte MAX_WIND_SPEED
    rw [hmin, hmax]
    norm_num [around]

/-- Witness for C2 at the concrete inputs `10 ≤ 20` and `30 > 25`. -/
theorem C2_encode_wind_magnitude_witness :
    encode_wind_magnitude 10 ≤ encode_wind_magnitude 20 ∧
    encode_wind_magnitude 30 = 255 :=
  ⟨C2_encode_wind_magnitude.1 10 20 (by norm_num),
   C2_encode_wind_magnitude.2.2.2 30 (by norm_num)⟩

/-- C7: `decode_wind 0` is exactly `25 * (-128/127)`, strictly below `-25`,
and the decoder is the uniform linear formula for every byte, with no
special case for byte `0`. -/
theorem C7_decode_wind_byte_zero :
    decode_wind 0 = 25 * (-128 / 127) ∧
    decode_wind 0 < -25 ∧
    (∀ b : ℚ, decode_wind b = MAX_WIND_SPEED * (b - 128) / 127) := by
  refine ⟨?_, ?_, fun b => rfl⟩ <;>
    norm_num [decode_wind, decode_from_scaled_byte, MAX_WIND_SPEED]

/-- C9: for every byte `b` in `[1, 255]`, `encode_wind (decode_wind b) = b`
exactly, while `encode_wind (decode_wind 0) = 1`, not `0`. -/
theorem C9_byte_value_byte_roundtrip :
    (∀ b : ℤ, 1 ≤ b → b ≤ 255 → encode_wind (decode_wind (b : ℚ)) = b) ∧
    encode_wind (decode_wind 0) = 1 := by
  constructor
  · intro b h1 h2
    unfold encode_wind encode_to_scaled_byte decode_wind decode_from_scaled_byte MAX_WIND_SPEED
    rw [show (25 * ((b:ℚ) - 128) / 127) / 25 = ((b:ℚ) - 128) / 127 by ring]
    have hc1 : (b:ℚ) ≤ 255 := by exact_mod_cast h2
    have hc2 : (1:ℚ) ≤ (b:ℚ) := by exact_mod_cast h1
    have hb1 : ((b:ℚ) - 128) / 127 ≤ 1 := by
      rw [div_le_one (by norm_num : (0:ℚ) < 127)]; linarith
    have hb2 : (-1:ℚ) ≤ ((b:ℚ) - 128) / 127 := by
      rw [le_div_iff₀ (by norm_num : (0:ℚ) < 127)]; linarith
    rw [min_eq_left hb1, max_eq_left hb2,
      show 127 * (((b:ℚ) - 128) / 127) + 128 = ((b:ℚ)) by ring, around_intCast]
  · unfold encode_wind encode_to_scaled_byte decode_wind decode_from_scaled_byte MAX_WIND_SPEED
    rw [show (25 * ((0:ℚ) - 128) / 127) / 25 = -(128 / 127) by norm_num]
    have hmin : min (-(128/127) : ℚ) 1 = -(128/127) := min_eq_left (by norm_num)
    have hmax : max (-(128/127) : ℚ) (-1) = -1 := max_eq_right (by norm_num)
    rw [hmin, hmax]
    norm_num [around]

/-- Witness for C9 at the concrete byte `200`. -/
theorem C9_byte_value_byte_roundtrip_witness :
    encode_wind (decode_wind ((200 : ℤ) : ℚ)) = 200 :=
  C9_byte_value_byte_roundtrip.1 200 (by norm_num) (by norm_num)

/-- C3 counterexample: with shape `[1000, 500]` and no offset, the helper
does not return `[-1000, 250, 0, 750]`; the default rule `dx = -w`, `dy = h`
with `w = 500`, `h = 250` yields `[-1000, 0, 0, 500]`. -/
theorem C3_area_extent_default_counterexample :
    area_extent_from_user_shape (1000, 500) none ≠ (-1000, 250, 0, 750) := by
  norm_num [area_extent_from_user_shape, around]

/-- C3 amended: calling the area-extent helper with shape `[1000, 500]` and
no offset returns the extent `[-1000, 0, 0, 500]`, following the
default-offset rule `dx = -w`, `dy = h` with half-extents `w = 500`,
`h = 250`. -/
theorem C3_area_extent_default :
    area_extent_from_user_shape (1000, 500) none = (-1000, 0, 0, 500) := by
  norm_num [area_extent_from_user_shape, around]

/-- C4 counterexample: the orchestrator's source extent is not the
unspecified-offset (southwest-origin) extent: at the default source shape
`[1000, 500]` the resample step produces the origin-centered
`(-500, -250, 500, 250)`, not `area_extent_from_user_shape (1000, 500) none`. -/
theorem C4_resample_source_extent_counterexample :
    resample_source_extent (1000, 500) = (-500, -250, 500, 250) ∧
    resample_source_extent (1000, 500) ≠
      area_extent_from_user_shape (1000, 500) none := by
  constructor <;>
    norm_num [resample_source_extent, area_extent_from_user_shape, around]

/-- C4 amended: in the orchestrator's resample step, the source area's
extent is derived with the explicit offset `[0, 0]`, placing the area
centered at the origin: `(-w, -h, w, h)` for half-extents `w`, `h`. -/
theorem C4_resample_source_extent_centered (sShape : ℚ × ℚ) :
    resample_source_extent sShape =
      (-(around (sShape.1 / 2) : ℚ), -(around (sShape.2 / 2) : ℚ),
       (around (sShape.1 / 2) : ℚ), (around (sShape.2 / 2) : ℚ)) := by
  simp [resample_source_extent, area_extent_from_user_shape]

/-- C5: with a present offset `(dx, dy)`, the helper returns
`(-w + dx, -h + dy, w + dx, h + dy)` with `w = around (w0/2)`,
`h = around (h0/2)` rounded before combining with the offset; in
particular shape `[500, 500]` with offset `[125, -125]` yields
`[-125, -375, 375, 125]`. -/
theorem C5_area_extent_with_offset :
    (∀ shape offset : ℚ × ℚ,
      area_extent_from_user_shape shape (some offset) =
        (-(around (shape.1 / 2) : ℚ) + offset.1,
         -(around (shape.2 / 2) : ℚ) + offset.2,
         (around (shape.1 / 2) : ℚ) + offset.1,
         (around (shape.2 / 2) : ℚ) + offset.2)) ∧
    area_extent_from_user_shape (500, 500) (some (125, -125)) =
      (-125, -375, 375, 125) := by
  constructor
  · intro shape offset
    rfl
  · norm_num [area_extent_from_user_shape, around]

/-- C6: `compute_target_image_size` passes the input size through unchanged
when the rescale factor is exactly `1`, and otherwise multiplies each
dimension by the scale factor without rounding; in particular
`(100, 200)` at factor `1` gives `(100, 200)` and at factor `1/4` gives
`(25, 50)`. -/
theorem C6_compute_target_image_size :
    (∀ s : ℚ × ℚ, compute_target_image_size s 1 = s) ∧
    (∀ (s : ℚ × ℚ) (k : ℚ), k ≠ 1 →
      compute_target_image_size s k = (s.1 * k, s.2 * k)) ∧
    compute_target_image_size (100, 200) 1 = (100, 200) ∧
    compute_target_image_size (100, 200) (1/4) = (25, 50) := by
  refine ⟨fun s => by simp [compute_target_image_size],
    fun s k hk => by simp [compute_target_image_size, hk],
    by simp [compute_target_image_size], ?_⟩
  norm_num [compute_target_image_size]

/-- Witness for C6 at the concrete size `(3, 4)` and factor `2 ≠ 1`. -/
theorem C6_compute_target_image_size_witness :
    compute_target_image_size (3, 4) 2 = (6, 8) := by
  rw [C6_compute_target_image_size.2.1 (3, 4) 2 (by norm_num)]
  norm_num

/-- C8: the pipeline is all-or-nothing: a missing input file produces a
`DataError` and mismatched input shapes produce an assertion failure, and
in both cases `process_data` returns an error, so no output image is
written. -/
theorem C8_pipeline_all_or_nothing
    (sqrtFn : ℚ → ℚ) (resampleFn : List (List ℚ) → List (List ℚ))
    (uFileData vFileData : Option Image) :
    (uFileData = none ∨ vFileData = none →
      ∃ msg, process_data sqrtFn resampleFn uFileData vFileData =
        .error (.dataError msg)) ∧
    (∀ uData vData, uFileData = some uData → vFileData = some vData →
      npShape vData ≠ npShape uData →
      process_data sqrtFn resampleFn uFileData vFileData =
        .error .assertionFailed) := by
  constructor
  · rintro (rfl | rfl)
    · exact ⟨_, rfl⟩
    · cases uFileData with
      | none => exact ⟨_, rfl⟩
      | some u => exact ⟨_, rfl⟩
  · rintro uData vData rfl rfl hne
    simp [process_data, hne]

/-- Witness for C8 at a concrete missing u-file and a concrete `1×2` versus
`1×1` shape mismatch. -/
theorem C8_pipeline_all_or_nothing_witness :
    (∃ msg, process_data id id none (some [[1]]) =
      .error (.dataError msg)) ∧
    process_data id id (some [[1, 2]]) (some [[1]]) =
      .error .assertionFailed :=
  ⟨(C8_pipeline_all_or_nothing id id none (some [[1]])).1 (Or.inl rfl),
   (C8_pipeline_all_or_nothing id id (some [[1, 2]]) (some [[1]])).2
     [[1, 2]] [[1]] rfl rfl (by decide)⟩

/-- C10: when the target shape option is omitted, argument post-processing
sets the target shape to the (unit-normalized) source shape and forces the
target offset to `[0, 0]`, so the result does not depend on any
user-supplied target offset. -/
theorem C10_default_target_shape (d : ℤ) (pa : ParsedArgs)
    (h : pa.tShape = none) :
    (post_process_args d pa).tShape = some ((post_process_args d pa).sShape) ∧
    (post_process_args d pa).tOffset = some (0, 0) ∧
    (∀ o : Option (ℚ × ℚ),
      post_process_args d { pa with tOffset := o } = post_process_args d pa) := by
  have main : ∀ q : ParsedArgs, q.tShape = none →
      (post_process_args d q).tShape = some ((post_process_args d q).sShape) ∧
      (post_process_args d q).tOffset = some (0, 0) := by
    intro q hq
    simp only [post_process_args]
    set q1 := if d < q.nprocs then { q with nprocs := d } else q with hq1
    have h1 : q1.tShape = none := by
      rw [hq1]; split_ifs <;> simpa using hq
    set q2 := if q1.units = 'd' then normalize_units q1 else q1 with hq2
    have h2 : q2.tShape = none := by
      rw [hq2]; split_ifs with hu
      · simp [normalize_units, hu, h1]
      · exact h1
    rw [if_pos h2]
    exact ⟨rfl, rfl⟩
  refine ⟨(main pa h).1, (main pa h).2, fun o => ?_⟩
  simp only [post_process_args, normalize_units]
  split_ifs <;> simp_all

/-- Witness for C10 at a concrete argument record with `tShape = none` and
a user-supplied `tOffset = [5, 7]`. -/
theorem C10_default_target_shape_witness :
    (post_process_args 4 ⟨2, 'm', (1000, 500), none, some (5, 7)⟩).tShape =
      some ((post_process_args 4 ⟨2, 'm', (1000, 500), none, some (5, 7)⟩).sShape) ∧
    (post_process_args 4 ⟨2, 'm', (1000, 500), none, some (5, 7)⟩).tOffset =
      some (0, 0) ∧
    (∀ o : Option (ℚ × ℚ),
      post_process_args 4 { (⟨2, 'm', (1000, 500), none, some (5, 7)⟩ : ParsedArgs) with tOffset := o } =
        post_process_args 4 ⟨2, 'm', (1000, 500), none, some (5, 7)⟩) :=
  C10_default_target_shape 4 ⟨2, 'm', (1000, 500), none, some (5, 7)⟩ rfl

end ClimaHW
